import Mathlib

/-!
Shallow embedding of the pointer-input disambiguation engine
(`packages/tools/src/eventListeners/mouse/mouseDownListener.ts`).

Pure values model the module's global mutable records (`state`,
`doubleClickState`) and the set of registered DOM listeners; each DOM
handler becomes a function from an engine state to a new engine state
together with the list of semantic events it emitted (in order).  The two
`setTimeout` timers are modelled by absolute deadlines stored in the state,
and a small scheduler (`run`) replays a timestamped list of raw inputs,
firing any due timer before each input, exactly as the single-threaded
event loop would.  External collaborators (the enabled-element lookup, the
`triggerEvent` consumption answer, the viewport's canvas-to-world
transform) are packaged in an `Env` record; the point sampler
(`getMouseEventPoints`) is pure, so a raw mouse event simply carries its
sampled points.  Coordinates are integers; none of the verified claims
depends on fractional values.
-/

namespace CornerstoneMouse

/-- A 2-D point (page, client or canvas space). -/
abbrev Point2 := Int × Int

/-- A 3-D point (world space). -/
abbrev Point3 := Int × Int × Int

/-- `IPoints`: one logical point in all four coordinate spaces. -/
structure IPoints where
  page : Point2
  client : Point2
  canvas : Point2
  world : Point3
deriving DecidableEq

/-- The all-zero `IPoints` record (the default snapshot value). -/
def zeroPoints : IPoints :=
  { page := (0, 0), client := (0, 0), canvas := (0, 0), world := (0, 0, 0) }

/-- A raw native mouse event.  `buttons` is the button mask, `points` is the
pure point-sampler output for this event (`getMouseEventPoints`), `id`
distinguishes physically distinct events, and `currentTarget` is the handle
of the element the listener is attached to. -/
structure MouseEvent where
  id : Nat
  buttons : Nat
  currentTarget : Nat
  points : IPoints
deriving DecidableEq

/-- The semantic event names this module can emit. -/
inductive EventName where
  | MOUSE_DOWN
  | MOUSE_DOWN_ACTIVATE
  | MOUSE_CLICK
  | MOUSE_UP
  | MOUSE_DRAG
deriving DecidableEq

/-- The payload handed to `triggerEvent` (the fields of the source's
`eventDetail` objects that carry engine data; `camera` is always `{}` and is
omitted).  `event` is the raw source event, which the source can pass as
`null` when replaying cleared double-click state. -/
structure EventDetail where
  event : Option MouseEvent
  eventName : EventName
  mouseButton : Option Nat
  renderingEngineId : Option Nat
  viewportId : Option Nat
  startPoints : IPoints
  lastPoints : IPoints
  currentPoints : IPoints
  deltaPoints : IPoints
deriving DecidableEq

/-- One call to `triggerEvent`: the semantic name and the detail payload. -/
structure Emission where
  name : EventName
  detail : EventDetail
deriving DecidableEq

/-- The viewport collaborator: only `canvasToWorld` is consumed here. -/
structure Viewport where
  canvasToWorld : Point2 → Point3

/-- The result of `getEnabledElement` for the tracked element. -/
structure EnabledElement where
  renderingEngineId : Nat
  viewportId : Nat
  viewport : Option Viewport

/-- The external collaborators: `enabled` is what `getEnabledElement`
returns for the tracked element, and `notConsumed n` is the boolean
`triggerEvent` returns when emitting an event named `n` (true when no
listener prevented the default). -/
structure Env where
  enabled : Option EnabledElement
  notConsumed : EventName → Bool

/-- `IMouseDownListenerState`: the module-level `state` record.
`preventClickTimeout` holds the absolute deadline of the armed
click-disqualification timer (`none` when disarmed or spent). -/
structure MouseDownListenerState where
  mouseButton : Option Nat
  element : Option Nat
  renderingEngineId : Option Nat
  viewportId : Option Nat
  isClickEvent : Bool
  clickDelay : Nat
  preventClickTimeout : Option Nat
  startPoints : IPoints
  lastPoints : IPoints
deriving DecidableEq

/-- `IDoubleClickState`: the module-level `doubleClickState` record.
`doubleClickTimeout` holds the absolute deadline of the armed decision
timer (`none` when disarmed). -/
structure DoubleClickState where
  doubleClickTimeout : Option Nat
  mouseDownEvent : Option MouseEvent
  mouseUpEvent : Option MouseEvent
  ignoreDoubleClick : Bool
deriving DecidableEq

/-- Which gesture-scoped DOM listeners are currently registered:
`_onMouseUp` on the document, `_onMouseDrag` on the document,
`_onMouseMove` on the element, and the module-external baseline
`mouseMoveListener` on the element. -/
structure Listeners where
  mouseUpOnDocument : Bool
  mouseDragOnDocument : Bool
  mouseMoveOnElement : Bool
  baselineMoveOnElement : Bool
deriving DecidableEq

/-- The whole engine: both mutable records plus the listener registry. -/
structure EngineState where
  state : MouseDownListenerState
  doubleClickState : DoubleClickState
  listeners : Listeners
deriving DecidableEq

/-- Decision window for a single (primary) button, in ms. -/
def DOUBLE_CLICK_TOLERANCE_MS : Nat := 400

/-- Decision window for multi-button chords, in ms. -/
def MULTI_BUTTON_TOLERANCE_MS : Nat := 150

/-- Drag distance (L1, canvas space) past which a pending double click is
cancelled. -/
def DOUBLE_CLICK_DRAG_TOLERANCE : Int := 3

/-- The source's `defaultState` snapshot. -/
def defaultState : MouseDownListenerState :=
  { mouseButton := none
    element := none
    renderingEngineId := none
    viewportId := none
    isClickEvent := true
    clickDelay := 200
    preventClickTimeout := none
    startPoints := zeroPoints
    lastPoints := zeroPoints }

/-- `doubleClickState` as initialised at module load. -/
def initialDoubleClickState : DoubleClickState :=
  { doubleClickTimeout := none
    mouseDownEvent := none
    mouseUpEvent := none
    ignoreDoubleClick := false }

/-- Listener registry before any gesture: only the baseline move listener
(registered by the surrounding layer) is attached. -/
def initialListeners : Listeners :=
  { mouseUpOnDocument := false
    mouseDragOnDocument := false
    mouseMoveOnElement := false
    baselineMoveOnElement := true }

/-- The engine as it stands before the first press. -/
def initialEngineState : EngineState :=
  { state := defaultState
    doubleClickState := initialDoubleClickState
    listeners := initialListeners }

/-- `_copyPoints`: a structural (JSON round-trip) copy of a points record;
for the plain numeric record this is the identity on values. -/
def copyPoints (points : IPoints) : IPoints :=
  { page := points.page
    client := points.client
    canvas := points.canvas
    world := points.world }

/-- `_subtractPoints2D`: componentwise difference `point0 - point1`. -/
def subtractPoints2D (point0 point1 : Point2) : Point2 :=
  (point0.1 - point1.1, point0.2 - point1.2)

/-- `_subtractPoints3D`: componentwise difference `point0 - point1`. -/
def subtractPoints3D (point0 point1 : Point3) : Point3 :=
  (point0.1 - point1.1, point0.2.1 - point1.2.1, point0.2.2 - point1.2.2)

/-- `_getDeltaPoints`: zero delta when either argument is null/undefined,
otherwise componentwise `currentPoints - lastPoints` in all four spaces. -/
def getDeltaPoints (currentPoints lastPoints : Option IPoints) : IPoints :=
  match currentPoints, lastPoints with
  | some c, some l =>
    { page := subtractPoints2D c.page l.page
      client := subtractPoints2D c.client l.client
      canvas := subtractPoints2D c.canvas l.canvas
      world := subtractPoints3D c.world l.world }
  | _, _ =>
    { page := (0, 0), client := (0, 0), canvas := (0, 0), world := (0, 0, 0) }

/-- `_updateMouseEventsLastPoints`: recompute only the world projection from
the canvas point through the current viewport; unchanged when no enabled
viewport exists. -/
def updateMouseEventsLastPoints (env : Env) (lastPoints : IPoints) : IPoints :=
  match env.enabled with
  | none => lastPoints
  | some ee =>
    match ee.viewport with
    | none => lastPoints
    | some vp =>
      { page := lastPoints.page
        client := lastPoints.client
        canvas := lastPoints.canvas
        world := vp.canvasToWorld lastPoints.canvas }

/-- `_isDragPastDoubleClickTolerance`: true iff the L1 length of the 2-D
delta strictly exceeds `DOUBLE_CLICK_DRAG_TOLERANCE`. -/
def isDragPastDoubleClickTolerance (delta : Point2) : Bool :=
  decide (DOUBLE_CLICK_DRAG_TOLERANCE < |delta.1| + |delta.2|)

/-- `_preventClickHandler`: the click-disqualification timer callback. -/
def preventClickHandler (s : EngineState) : EngineState :=
  { s with state := { s.state with isClickEvent := false } }

/-- Firing the click-disqualification timer: run its callback; the one-shot
timer is then spent, so its deadline is dropped. -/
def firePreventClickTimeout (s : EngineState) : EngineState :=
  let s := preventClickHandler s
  { s with state := { s.state with preventClickTimeout := none } }

/-- `_clearDoubleClickTimeoutAndEvents`: disarm the decision timer and drop
both buffered raw events. -/
def clearDoubleClickTimeoutAndEvents (s : EngineState) : EngineState :=
  { s with
    doubleClickState :=
      { s.doubleClickState with
        doubleClickTimeout := none
        mouseDownEvent := none
        mouseUpEvent := none } }

/-- `_cleanUp`: deregister gesture-scoped listeners (the element-scoped ones
only when an element is tracked, mirroring the source's optional chaining),
restore the baseline move listener, clear double-click timer/events, and
reset `state` to the default snapshot. -/
def cleanUp (s : EngineState) : EngineState :=
  let l := { s.listeners with mouseUpOnDocument := false }
  let l :=
    if s.state.element.isSome then
      { l with mouseMoveOnElement := false, baselineMoveOnElement := true }
    else l
  let s := clearDoubleClickTimeoutAndEvents { s with listeners := l }
  { s with state := defaultState }

/-- `_doMouseDown`: emit `MOUSE_DOWN` built from the gesture state (the raw
event argument may be null when replaying cleared state), then
`MOUSE_DOWN_ACTIVATE` with the same detail when no listener consumed the
press. -/
def doMouseDown (env : Env) (evt : Option MouseEvent) (s : EngineState) :
    EngineState × List Emission :=
  let deltaPoints := getDeltaPoints (some s.state.startPoints) (some s.state.startPoints)
  let eventDetail : EventDetail :=
    { event := evt
      eventName := EventName.MOUSE_DOWN
      mouseButton := s.state.mouseButton
      renderingEngineId := s.state.renderingEngineId
      viewportId := s.state.viewportId
      startPoints := s.state.startPoints
      lastPoints := s.state.startPoints
      currentPoints := s.state.startPoints
      deltaPoints := deltaPoints }
  let s := { s with state := { s.state with lastPoints := copyPoints eventDetail.lastPoints } }
  let ems :=
    if env.notConsumed EventName.MOUSE_DOWN then
      [⟨EventName.MOUSE_DOWN, eventDetail⟩, ⟨EventName.MOUSE_DOWN_ACTIVATE, eventDetail⟩]
    else
      [⟨EventName.MOUSE_DOWN, eventDetail⟩]
  (s, ems)

/-- `_onMouseUp`: cancel the click-disqualification timer; while the
decision timer is armed, buffer a first release (and start watching element
moves) or, on a second release, confirm the double interaction and clean up
with nothing emitted; otherwise emit exactly one of `MOUSE_CLICK` /
`MOUSE_UP` and clean up.  In every path the `_onMouseDrag` document
listener is removed at the end. -/
def onMouseUp (_env : Env) (evt : MouseEvent) (s : EngineState) :
    EngineState × List Emission :=
  let s := { s with state := { s.state with preventClickTimeout := none } }
  let (s, ems) :=
    if s.doubleClickState.doubleClickTimeout.isSome then
      match s.doubleClickState.mouseUpEvent with
      | none =>
        let s :=
          { s with
            doubleClickState := { s.doubleClickState with mouseUpEvent := some evt }
            listeners := { s.listeners with mouseMoveOnElement := true } }
        (s, ([] : List Emission))
      | some _ => (cleanUp s, [])
    else
      let eventName :=
        if s.state.isClickEvent then EventName.MOUSE_CLICK else EventName.MOUSE_UP
      let currentPoints := evt.points
      let deltaPoints := getDeltaPoints (some currentPoints) (some s.state.lastPoints)
      let eventDetail : EventDetail :=
        { event := some evt
          eventName := eventName
          mouseButton := s.state.mouseButton
          renderingEngineId := s.state.renderingEngineId
          viewportId := s.state.viewportId
          startPoints := copyPoints s.state.startPoints
          lastPoints := copyPoints s.state.lastPoints
          currentPoints := currentPoints
          deltaPoints := deltaPoints }
      (cleanUp s, [⟨eventName, eventDetail⟩])
  ({ s with listeners := { s.listeners with mouseDragOnDocument := false } }, ems)

/-- `_doStateMouseDownAndUp` (force-finalize): set the double-click
suppression flag, read the buffered events, clear the decision timer and
buffers, replay the buffered press, then replay the buffered release when
one exists. -/
def doStateMouseDownAndUp (env : Env) (s : EngineState) :
    EngineState × List Emission :=
  let s :=
    { s with doubleClickState := { s.doubleClickState with ignoreDoubleClick := true } }
  let mouseDownEvent := s.doubleClickState.mouseDownEvent
  let mouseUpEvent := s.doubleClickState.mouseUpEvent
  let s := clearDoubleClickTimeoutAndEvents s
  let (s, downEms) := doMouseDown env mouseDownEvent s
  match mouseUpEvent with
  | some u =>
    let (s2, upEms) := onMouseUp env u s
    (s2, downEms ++ upEms)
  | none => (s, downEms)

/-- `_onMouseDrag`: nothing without an enabled viewport; while the decision
timer is armed, a move at or below the drag tolerance is swallowed, and a
move past it force-finalizes first; any surviving move emits `MOUSE_DRAG`
for this same sample and advances `lastPoints`. -/
def onMouseDrag (env : Env) (evt : MouseEvent) (s : EngineState) :
    EngineState × List Emission :=
  match env.enabled with
  | none => (s, [])
  | some ee =>
    match ee.viewport with
    | none => (s, [])
    | some _ =>
      let currentPoints := evt.points
      let lastPoints := updateMouseEventsLastPoints env s.state.lastPoints
      let deltaPoints := getDeltaPoints (some currentPoints) (some lastPoints)
      let emitDrag := fun (s : EngineState) (pre : List Emission) =>
        let eventDetail : EventDetail :=
          { event := some evt
            eventName := EventName.MOUSE_DRAG
            mouseButton := s.state.mouseButton
            renderingEngineId := s.state.renderingEngineId
            viewportId := s.state.viewportId
            startPoints := copyPoints s.state.startPoints
            lastPoints := copyPoints lastPoints
            currentPoints := currentPoints
            deltaPoints := deltaPoints }
        let s := { s with state := { s.state with lastPoints := copyPoints currentPoints } }
        (s, pre ++ [⟨EventName.MOUSE_DRAG, eventDetail⟩])
      if s.doubleClickState.doubleClickTimeout.isSome then
        if isDragPastDoubleClickTolerance deltaPoints.canvas then
          let (s1, finalizeEms) := doStateMouseDownAndUp env s
          emitDrag s1 finalizeEms
        else (s, [])
      else emitDrag s []

/-- `mouseDownListener`: while the decision timer is armed, an identical
button mask is ignored and a differing mask overwrites the buffered press
and force-finalizes; otherwise a fresh gesture is set up (arm the decision
timer with the mask-dependent duration, reset the suppression flag, record
the gesture state, arm the click-disqualification timer, swap the move
listeners, capture start/last points, register the up/drag listeners).
`none` models the exceptions the source would raise (reading `.buttons` of
a null buffered press, or destructuring a missing enabled element). -/
def mouseDownListener (env : Env) (now : Nat) (evt : MouseEvent)
    (s : EngineState) : Option (EngineState × List Emission) :=
  if s.doubleClickState.doubleClickTimeout.isSome then
    match s.doubleClickState.mouseDownEvent with
    | none => none
    | some d =>
      if evt.buttons = d.buttons then some (s, [])
      else
        let s :=
          { s with
            doubleClickState := { s.doubleClickState with mouseDownEvent := some evt } }
        some (doStateMouseDownAndUp env s)
  else
    match env.enabled with
    | none => none
    | some ee =>
      let newDoubleClickState : DoubleClickState :=
        { s.doubleClickState with
          doubleClickTimeout :=
            some (now +
              (if evt.buttons = 1 then DOUBLE_CLICK_TOLERANCE_MS
               else MULTI_BUTTON_TOLERANCE_MS))
          mouseDownEvent := some evt
          ignoreDoubleClick := false }
      let startPoints := evt.points
      let newState : MouseDownListenerState :=
        { s.state with
          element := some evt.currentTarget
          mouseButton := some evt.buttons
          renderingEngineId := some ee.renderingEngineId
          viewportId := some ee.viewportId
          preventClickTimeout := some (now + s.state.clickDelay)
          startPoints := copyPoints startPoints
          lastPoints := copyPoints startPoints }
      let newListeners : Listeners :=
        { s.listeners with
          baselineMoveOnElement := false
          mouseUpOnDocument := true
          mouseDragOnDocument := true }
      some
        ({ state := newState
           doubleClickState := newDoubleClickState
           listeners := newListeners }, [])

/-- `mouseDoubleClickIgnoreListener`: when the suppression flag is set,
consume it and block the native notification (the returned boolean is true
iff `stopImmediatePropagation`/`preventDefault` were invoked); otherwise
perform a cleanup and let the notification propagate. -/
def mouseDoubleClickIgnoreListener (s : EngineState) : EngineState × Bool :=
  if s.doubleClickState.ignoreDoubleClick then
    ({ s with
       doubleClickState := { s.doubleClickState with ignoreDoubleClick := false } },
     true)
  else
    (cleanUp s, false)

/-- Fire the earliest armed timer whose deadline is at or before `t`
(registration order — the decision timer first — breaks the impossible tie),
or report that none is due. -/
def fireOnce (env : Env) (s : EngineState) (t : Nat) :
    Option (EngineState × List Emission) :=
  match s.doubleClickState.doubleClickTimeout, s.state.preventClickTimeout with
  | some dd, some pd =>
    if dd ≤ t then
      if pd ≤ t ∧ pd < dd then some (firePreventClickTimeout s, [])
      else some (doStateMouseDownAndUp env s)
    else if pd ≤ t then some (firePreventClickTimeout s, [])
    else none
  | some dd, none =>
    if dd ≤ t then some (doStateMouseDownAndUp env s) else none
  | none, some pd =>
    if pd ≤ t then some (firePreventClickTimeout s, []) else none
  | none, none => none

/-- Fire every timer due at or before `t`, in deadline order.  At most two
timers exist and firing never arms a new one, so two rounds suffice. -/
def fireDueTimers (env : Env) (s : EngineState) (t : Nat) :
    EngineState × List Emission :=
  match fireOnce env s t with
  | none => (s, [])
  | some (s1, e1) =>
    match fireOnce env s1 t with
    | none => (s1, e1)
    | some (s2, e2) => (s2, e1 ++ e2)

/-- A timestamped raw input from the pointing device. -/
inductive RawInput where
  | press (evt : MouseEvent)
  | release (evt : MouseEvent)
deriving DecidableEq

/-- Deliver one raw input to whichever handler is registered for it: a press
always reaches `mouseDownListener` (the module-level element listener); a
release reaches `_onMouseUp` only while that document listener is
registered. -/
def dispatch (env : Env) (now : Nat) (i : RawInput) (s : EngineState) :
    Option (EngineState × List Emission) :=
  match i with
  | RawInput.press evt => mouseDownListener env now evt s
  | RawInput.release evt =>
    if s.listeners.mouseUpOnDocument then some (onMouseUp env evt s)
    else some (s, [])

/-- Replay a time-ordered list of raw inputs on the single-threaded event
loop: before each input every timer due by that time fires, and after the
last input every timer due by `horizon` fires. -/
def run (env : Env) (s : EngineState) (inputs : List (Nat × RawInput))
    (horizon : Nat) : Option (EngineState × List Emission) :=
  match inputs with
  | [] => some (fireDueTimers env s horizon)
  | (t, i) :: rest =>
    let (s1, e1) := fireDueTimers env s t
    match dispatch env t i s1 with
    | none => none
    | some (s2, e2) =>
      match run env s2 rest horizon with
      | none => none
      | some (s3, e3) => some (s3, e1 ++ e2 ++ e3)

/-! ### Concrete fixtures used by witnesses and counterexamples -/

/-- A sample point whose four projections share the 2-D coordinates. -/
def samplePoints (x y : Int) : IPoints :=
  { page := (x, y), client := (x, y), canvas := (x, y), world := (x, y, 0) }

/-- A sample viewport transform. -/
def sampleViewport : Viewport := { canvasToWorld := fun c => (c.1, c.2, 7) }

/-- A sample enabled element carrying the sample viewport. -/
def sampleEnabled : EnabledElement :=
  { renderingEngineId := 1, viewportId := 2, viewport := some sampleViewport }

/-- A sample environment in which no listener consumes any event. -/
def sampleEnv : Env := { enabled := some sampleEnabled, notConsumed := fun _ => true }

/-- A primary-button press. -/
def pressOne : MouseEvent :=
  { id := 1, buttons := 1, currentTarget := 9, points := samplePoints 10 10 }

/-- The release of `pressOne`. -/
def releaseOne : MouseEvent :=
  { id := 2, buttons := 0, currentTarget := 9, points := samplePoints 10 10 }

/-- A second primary-button press (same mask as `pressOne`). -/
def pressOneAgain : MouseEvent :=
  { id := 3, buttons := 1, currentTarget := 9, points := samplePoints 11 10 }

/-- The release of `pressOneAgain`. -/
def releaseOneAgain : MouseEvent :=
  { id := 4, buttons := 0, currentTarget := 9, points := samplePoints 11 10 }

/-- A secondary-button press (mask 2, differing from `pressOne`). -/
def pressTwo : MouseEvent :=
  { id := 5, buttons := 2, currentTarget := 9, points := samplePoints 11 10 }

/-- A move sample far past the drag tolerance from `pressOne`. -/
def moveFar : MouseEvent :=
  { id := 6, buttons := 1, currentTarget := 9, points := samplePoints 20 10 }

/-- A move sample within the drag tolerance from `pressOne`. -/
def moveNear : MouseEvent :=
  { id := 7, buttons := 1, currentTarget := 9, points := samplePoints 12 10 }

/-- The engine state right after `pressOne` at time 0 (decision timer armed,
press buffered). -/
def armedState : EngineState :=
  ((mouseDownListener sampleEnv 0 pressOne initialEngineState).getD
    (initialEngineState, [])).1

/-! ### C8 -/

/-- Claim C8: a raw press arriving while the decision timer is armed whose
button mask equals the buffered first press's mask is silently ignored: no
semantic event is emitted and the engine state is returned unmodified. -/
theorem mouseDownListener_repeated_press_ignored (env : Env) (now : Nat)
    (evt d : MouseEvent) (s : EngineState) (td : Nat)
    (harm : s.doubleClickState.doubleClickTimeout = some td)
    (hbuf : s.doubleClickState.mouseDownEvent = some d)
    (hmask : evt.buttons = d.buttons) :
    mouseDownListener env now evt s = some (s, []) := by
  simp [mouseDownListener, harm, hbuf, hmask]

/-- Witness for C8: the repeated primary press on the armed state is
dropped with the state unchanged. -/
theorem mouseDownListener_repeated_press_ignored_wit :
    armedState.doubleClickState.doubleClickTimeout = some 400 ∧
    armedState.doubleClickState.mouseDownEvent = some pressOne ∧
    pressOneAgain.buttons = pressOne.buttons ∧
    mouseDownListener sampleEnv 20 pressOneAgain armedState = some (armedState, []) :=
  ⟨by decide, by decide, by decide,
    mouseDownListener_repeated_press_ignored sampleEnv 20 pressOneAgain pressOne
      armedState 400 (by decide) (by decide) (by decide)⟩

/-! ### C6 -/

/-- Claim C6: on a fresh press (no decision timer armed) the armed decision
timer's duration is 400 ms when the pressed mask is exactly the single
primary button and 150 ms for every other mask, and no event is emitted. -/
theorem mouseDownListener_decision_timer_duration (env : Env)
    (ee : EnabledElement) (now : Nat) (evt : MouseEvent) (s : EngineState)
    (hfresh : s.doubleClickState.doubleClickTimeout = none)
    (henv : env.enabled = some ee) :
    (mouseDownListener env now evt s).map
        (fun r => (r.1.doubleClickState.doubleClickTimeout, r.2)) =
      some (some (now + (if evt.buttons = 1 then 400 else 150)), []) := by
  simp [mouseDownListener, hfresh, henv, DOUBLE_CLICK_TOLERANCE_MS,
    MULTI_BUTTON_TOLERANCE_MS]

/-- Witness for C6: a primary press arms a 400 ms window and a two-button
mask arms a 150 ms window. -/
theorem mouseDownListener_decision_timer_duration_wit :
    (initialEngineState.doubleClickState.doubleClickTimeout = none ∧
      sampleEnv.enabled = some sampleEnabled) ∧
    (mouseDownListener sampleEnv 5 pressOne initialEngineState).map
        (fun r => (r.1.doubleClickState.doubleClickTimeout, r.2)) =
      some (some (5 + (if pressOne.buttons = 1 then 400 else 150)), []) ∧
    (mouseDownListener sampleEnv 5 pressTwo initialEngineState).map
        (fun r => (r.1.doubleClickState.doubleClickTimeout, r.2)) =
      some (some (5 + (if pressTwo.buttons = 1 then 400 else 150)), []) :=
  ⟨⟨rfl, rfl⟩,
    mouseDownListener_decision_timer_duration sampleEnv sampleEnabled 5 pressOne
      initialEngineState rfl rfl,
    mouseDownListener_decision_timer_duration sampleEnv sampleEnabled 5 pressTwo
      initialEngineState rfl rfl⟩

/-! ### C9 -/

/-- Claim C9: the delta-points computation is total over possibly-missing
inputs — a null/undefined argument on either side yields the zero delta in
all four spaces, and two present arguments yield the componentwise
subtraction current minus last in each space. -/
theorem getDeltaPoints_total_componentwise (a b : Option IPoints) :
    ((a = none ∨ b = none) → getDeltaPoints a b = zeroPoints) ∧
    (∀ pa pb, a = some pa → b = some pb →
      getDeltaPoints a b =
        { page := (pa.page.1 - pb.page.1, pa.page.2 - pb.page.2)
          client := (pa.client.1 - pb.client.1, pa.client.2 - pb.client.2)
          canvas := (pa.canvas.1 - pb.canvas.1, pa.canvas.2 - pb.canvas.2)
          world := (pa.world.1 - pb.world.1, pa.world.2.1 - pb.world.2.1,
            pa.world.2.2 - pb.world.2.2) }) := by
  constructor
  · rintro (rfl | rfl)
    · simp [getDeltaPoints, zeroPoints]
    · cases a <;> simp [getDeltaPoints, zeroPoints]
  · rintro pa pb rfl rfl
    simp [getDeltaPoints, subtractPoints2D, subtractPoints3D]

/-- Witness for C9: both the missing-argument case and the componentwise
case evaluated at concrete points. -/
theorem getDeltaPoints_total_componentwise_wit :
    getDeltaPoints none (some (samplePoints 3 4)) = zeroPoints ∧
    getDeltaPoints (some (samplePoints 10 10)) (some (samplePoints 3 4)) =
      { page := ((10 : Int) - 3, (10 : Int) - 4)
        client := ((10 : Int) - 3, (10 : Int) - 4)
        canvas := ((10 : Int) - 3, (10 : Int) - 4)
        world := ((10 : Int) - 3, (10 : Int) - 4, (0 : Int) - 0) } :=
  ⟨(getDeltaPoints_total_componentwise none (some (samplePoints 3 4))).1
      (Or.inl rfl),
    (getDeltaPoints_total_componentwise (some (samplePoints 10 10))
      (some (samplePoints 3 4))).2 _ _ rfl rfl⟩

/-! ### C10 -/

/-- Claim C10: recomputing the last points keeps the page, client and
canvas projections unchanged and recomputes only the world projection from
the canvas point through the current viewport transform; with no enabled
viewport the record is returned entirely unchanged. -/
theorem updateMouseEventsLastPoints_world_only (env : Env) (l : IPoints) :
    (env.enabled = none → updateMouseEventsLastPoints env l = l) ∧
    (∀ ee, env.enabled = some ee → ee.viewport = none →
      updateMouseEventsLastPoints env l = l) ∧
    (∀ ee vp, env.enabled = some ee → ee.viewport = some vp →
      updateMouseEventsLastPoints env l =
        { page := l.page, client := l.client, canvas := l.canvas,
          world := vp.canvasToWorld l.canvas }) := by
  refine ⟨fun h => ?_, fun ee h hvp => ?_, fun ee vp h hvp => ?_⟩ <;>
    simp [updateMouseEventsLastPoints, h]
  · simp [hvp]
  · simp [hvp]

/-- Witness for C10: the sample viewport rewrites only the world
projection, and an environment without an enabled element returns the
record unchanged. -/
theorem updateMouseEventsLastPoints_world_only_wit :
    (sampleEnv.enabled = some sampleEnabled ∧
      sampleEnabled.viewport = some sampleViewport) ∧
    updateMouseEventsLastPoints sampleEnv (samplePoints 10 10) =
      { page := (10, 10), client := (10, 10), canvas := (10, 10),
        world := sampleViewport.canvasToWorld (10, 10) } ∧
    updateMouseEventsLastPoints { enabled := none, notConsumed := fun _ => true }
        (samplePoints 10 10) = samplePoints 10 10 :=
  ⟨⟨rfl, rfl⟩,
    (updateMouseEventsLastPoints_world_only sampleEnv (samplePoints 10 10)).2.2
      sampleEnabled sampleViewport rfl rfl,
    (updateMouseEventsLastPoints_world_only
      { enabled := none, notConsumed := fun _ => true } (samplePoints 10 10)).1 rfl⟩

/-! ### Helper lemmas shared across claims -/

/-- Force-finalize always leaves the decision timer disarmed (every path
through it runs `_clearDoubleClickTimeoutAndEvents`, and replaying the
buffered release can only clean up further). -/
theorem doStateMouseDownAndUp_timeout_none (env : Env) (s : EngineState) :
    (doStateMouseDownAndUp env s).1.doubleClickState.doubleClickTimeout = none := by
  cases hup : s.doubleClickState.mouseUpEvent <;>
    simp [doStateMouseDownAndUp, clearDoubleClickTimeoutAndEvents, doMouseDown,
      onMouseUp, cleanUp, hup]

/-! ### C5 -/

/-- Claim C5: for a move processed by the drag handler while the decision
timer is armed (and the element has an enabled viewport), a canvas-space L1
delta strictly above the tolerance of 3 force-finalizes the pending
decision and then emits a live drag event for this same sample (so the
sample is not dropped and the timer ends disarmed), while a delta at or
below the tolerance emits nothing and leaves the state untouched. -/
theorem onMouseDrag_decision_window_tolerance (env : Env)
    (ee : EnabledElement) (vp : Viewport) (evt : MouseEvent) (s : EngineState)
    (td : Nat) (delta : IPoints)
    (henv : env.enabled = some ee) (hvp : ee.viewport = some vp)
    (harm : s.doubleClickState.doubleClickTimeout = some td)
    (hdelta : delta = getDeltaPoints (some evt.points)
      (some (updateMouseEventsLastPoints env s.state.lastPoints))) :
    (isDragPastDoubleClickTolerance delta.canvas = true →
      (onMouseDrag env evt s).2.map (fun e => e.name) =
        (doStateMouseDownAndUp env s).2.map (fun e => e.name) ++
          [EventName.MOUSE_DRAG] ∧
      ((onMouseDrag env evt s).2.getLast?).map
          (fun e => (e.name, e.detail.currentPoints, e.detail.deltaPoints)) =
        some (EventName.MOUSE_DRAG, evt.points, delta) ∧
      (onMouseDrag env evt s).1.doubleClickState.doubleClickTimeout = none) ∧
    (isDragPastDoubleClickTolerance delta.canvas = false →
      onMouseDrag env evt s = (s, [])) := by
  subst hdelta
  rcases hds : doStateMouseDownAndUp env s with ⟨s1, ems⟩
  constructor
  · intro htol
    have hto : s1.doubleClickState.doubleClickTimeout = none := by
      have := doStateMouseDownAndUp_timeout_none env s
      rw [hds] at this
      exact this
    simp [onMouseDrag, henv, hvp, harm, htol, hds, hto]
  · intro htol
    simp [onMouseDrag, henv, hvp, harm, htol]

/-- Witness for C5: with the armed state after `pressOne`, the far move
(canvas delta (10,0), L1 = 10 > 3) finalizes and emits the drag, and the
near move (delta (2,0), L1 = 2 ≤ 3) is swallowed. -/
theorem onMouseDrag_decision_window_tolerance_wit :
    (sampleEnv.enabled = some sampleEnabled ∧
      sampleEnabled.viewport = some sampleViewport ∧
      armedState.doubleClickState.doubleClickTimeout = some 400) ∧
    ((isDragPastDoubleClickTolerance
        (getDeltaPoints (some moveFar.points)
          (some (updateMouseEventsLastPoints sampleEnv
            armedState.state.lastPoints))).canvas = true →
      (onMouseDrag sampleEnv moveFar armedState).2.map (fun e => e.name) =
        (doStateMouseDownAndUp sampleEnv armedState).2.map (fun e => e.name) ++
          [EventName.MOUSE_DRAG] ∧
      ((onMouseDrag sampleEnv moveFar armedState).2.getLast?).map
          (fun e => (e.name, e.detail.currentPoints, e.detail.deltaPoints)) =
        some (EventName.MOUSE_DRAG, moveFar.points,
          getDeltaPoints (some moveFar.points)
            (some (updateMouseEventsLastPoints sampleEnv
              armedState.state.lastPoints))) ∧
      (onMouseDrag sampleEnv moveFar armedState).1.doubleClickState.doubleClickTimeout =
        none) ∧
     (isDragPastDoubleClickTolerance
        (getDeltaPoints (some moveFar.points)
          (some (updateMouseEventsLastPoints sampleEnv
            armedState.state.lastPoints))).canvas = false →
      onMouseDrag sampleEnv moveFar armedState = (armedState, []))) :=
  ⟨⟨rfl, rfl, by decide⟩,
    onMouseDrag_decision_window_tolerance sampleEnv sampleEnabled sampleViewport
      moveFar armedState 400 _ rfl rfl (by decide) rfl⟩

/-! ### C7 -/

/-- Claim C7: an ordinary release (decision timer not armed) emits exactly
one semantic event — click when the gesture still qualifies, release once
the disqualification timer fired (the only writer of `isClickEvent`) — and
the scenario press(button 1) at t=0, release at t=250 with delay 200 ends
with a release, not a click, once the decision window resolves. -/
theorem onMouseUp_release_not_click (env : Env) (ee : EnabledElement)
    (d u evt : MouseEvent) (s : EngineState)
    (henv : env.enabled = some ee)
    (hnc : env.notConsumed EventName.MOUSE_DOWN = true)
    (hb : d.buttons = 1)
    (hfresh : s.doubleClickState.doubleClickTimeout = none) :
    ((onMouseUp env evt s).2.map (fun e => e.name) =
      [if s.state.isClickEvent then EventName.MOUSE_CLICK else EventName.MOUSE_UP]) ∧
    (preventClickHandler s).state.isClickEvent = false ∧
    ((run env initialEngineState
        [(0, RawInput.press d), (250, RawInput.release u)] 400).map
      (fun r => r.2.map (fun e => e.name)) =
      some [EventName.MOUSE_DOWN, EventName.MOUSE_DOWN_ACTIVATE,
        EventName.MOUSE_UP]) := by
  refine ⟨?_, ?_, ?_⟩
  · simp [onMouseUp, hfresh]
  · simp [preventClickHandler]
  · simp [run, fireDueTimers, fireOnce, dispatch, mouseDownListener, henv, hb,
      hnc, onMouseUp, doStateMouseDownAndUp, doMouseDown, cleanUp,
      clearDoubleClickTimeoutAndEvents, firePreventClickTimeout,
      preventClickHandler, initialEngineState, defaultState,
      initialDoubleClickState, initialListeners, DOUBLE_CLICK_TOLERANCE_MS,
      MULTI_BUTTON_TOLERANCE_MS, copyPoints]

/-- Witness for C7: the concrete press/release pair at times 0 and 250. -/
theorem onMouseUp_release_not_click_wit :
    (sampleEnv.enabled = some sampleEnabled ∧
      sampleEnv.notConsumed EventName.MOUSE_DOWN = true ∧
      pressOne.buttons = 1 ∧
      initialEngineState.doubleClickState.doubleClickTimeout = none) ∧
    ((onMouseUp sampleEnv releaseOne initialEngineState).2.map (fun e => e.name) =
      [if initialEngineState.state.isClickEvent then EventName.MOUSE_CLICK
       else EventName.MOUSE_UP]) ∧
    (preventClickHandler initialEngineState).state.isClickEvent = false ∧
    ((run sampleEnv initialEngineState
        [(0, RawInput.press pressOne), (250, RawInput.release releaseOne)] 400).map
      (fun r => r.2.map (fun e => e.name)) =
      some [EventName.MOUSE_DOWN, EventName.MOUSE_DOWN_ACTIVATE,
        EventName.MOUSE_UP]) :=
  ⟨⟨rfl, rfl, rfl, rfl⟩,
    onMouseUp_release_not_click sampleEnv sampleEnabled pressOne releaseOne
      releaseOne initialEngineState rfl rfl rfl rfl⟩

/-! ### C1 -/

/-- Counterexample to C1 as stated: when the secondary-button press arrives
while the decision timer is armed with `pressOne` buffered, the press
replayed by the forced finalize carries the newly arrived raw press
(`pressTwo`) as its source event, not the originally buffered first press. -/
theorem mouseDownListener_second_button_cx :
    ((mouseDownListener sampleEnv 20 pressTwo armedState).map
        (fun r => r.2.head?.map (fun e => e.detail.event))) =
      some (some (some pressTwo)) ∧
    armedState.doubleClickState.mouseDownEvent = some pressOne ∧
    pressTwo ≠ pressOne := by
  refine ⟨by decide, by decide, by decide⟩

/-- Amended C1: a raw press arriving while the decision timer is armed with
a differing button mask first overwrites the buffered press with the new
press and then force-finalizes, so the emitted press (and press-activate)
carries the newly arrived raw press as its source event while the button
mask and start points of the detail remain the first press's gesture state;
the listener then returns with the decision timer disarmed, starting no new
gesture for the new press. -/
theorem mouseDownListener_second_button (env : Env) (now : Nat)
    (evt d : MouseEvent) (s : EngineState) (td : Nat)
    (harm : s.doubleClickState.doubleClickTimeout = some td)
    (hbuf : s.doubleClickState.mouseDownEvent = some d)
    (hmask : evt.buttons ≠ d.buttons) :
    mouseDownListener env now evt s =
      some (doStateMouseDownAndUp env
        { s with doubleClickState :=
          { s.doubleClickState with mouseDownEvent := some evt } }) ∧
    ((mouseDownListener env now evt s).map (fun r => r.2.head?.map
        (fun e => (e.name, e.detail.event, e.detail.mouseButton,
          e.detail.startPoints)))) =
      some (some (EventName.MOUSE_DOWN, some evt, s.state.mouseButton,
        s.state.startPoints)) ∧
    ((mouseDownListener env now evt s).map
        (fun r => r.1.doubleClickState.doubleClickTimeout)) = some none := by
  have h1 : mouseDownListener env now evt s =
      some (doStateMouseDownAndUp env
        { s with doubleClickState :=
          { s.doubleClickState with mouseDownEvent := some evt } }) := by
    simp [mouseDownListener, harm, hbuf, hmask]
  refine ⟨h1, ?_, ?_⟩
  · rw [h1]
    cases hup : s.doubleClickState.mouseUpEvent <;>
      cases hnc : env.notConsumed EventName.MOUSE_DOWN <;>
        simp [doStateMouseDownAndUp, clearDoubleClickTimeoutAndEvents,
          doMouseDown, onMouseUp, cleanUp, hup, hnc]
  · rw [h1]
    simp [doStateMouseDownAndUp_timeout_none]

/-- Witness for amended C1: the secondary press against the armed state. -/
theorem mouseDownListener_second_button_wit :
    (armedState.doubleClickState.doubleClickTimeout = some 400 ∧
      armedState.doubleClickState.mouseDownEvent = some pressOne ∧
      pressTwo.buttons ≠ pressOne.buttons) ∧
    mouseDownListener sampleEnv 20 pressTwo armedState =
      some (doStateMouseDownAndUp sampleEnv
        { armedState with doubleClickState :=
          { armedState.doubleClickState with mouseDownEvent := some pressTwo } }) ∧
    ((mouseDownListener sampleEnv 20 pressTwo armedState).map
        (fun r => r.2.head?.map (fun e => (e.name, e.detail.event,
          e.detail.mouseButton, e.detail.startPoints)))) =
      some (some (EventName.MOUSE_DOWN, some pressTwo,
        armedState.state.mouseButton, armedState.state.startPoints)) ∧
    ((mouseDownListener sampleEnv 20 pressTwo armedState).map
        (fun r => r.1.doubleClickState.doubleClickTimeout)) = some none :=
  ⟨⟨by decide, by decide, by decide⟩,
    (mouseDownListener_second_button sampleEnv 20 pressTwo pressOne armedState
      400 (by decide) (by decide) (by decide)).1,
    (mouseDownListener_second_button sampleEnv 20 pressTwo pressOne armedState
      400 (by decide) (by decide) (by decide)).2.1,
    (mouseDownListener_second_button sampleEnv 20 pressTwo pressOne armedState
      400 (by decide) (by decide) (by decide)).2.2⟩

/-! ### C2 -/

/-- Counterexample to C2 as stated: after a full same-button
press/release/press/release sequence inside the decision window, no event
is emitted (that part holds), but the suppression flag ends the sequence
still false — it was never set — and the next native double-click
notification is not blocked (the ignore listener returns without invoking
`stopImmediatePropagation`). -/
theorem sameButton_double_click_flag_cx :
    ((run sampleEnv initialEngineState
        [(0, RawInput.press pressOne), (30, RawInput.release releaseOne),
         (60, RawInput.press pressOneAgain),
         (90, RawInput.release releaseOneAgain)] 90).map
      (fun r => (r.2, r.1.doubleClickState.ignoreDoubleClick,
        (mouseDoubleClickIgnoreListener r.1).2))) =
      some ([], false, false) := by
  decide

/-- Amended C2: for a same-mask press/release/press/release sequence whose
second press arrives while the decision timer is armed, no semantic event
at all is emitted for either pair, the suppression flag is never set (it is
reset to false at the first press and is still false after the confirming
second release), and the next native double-click notification finds the
flag clear, performs a state cleanup, and is not blocked from
propagating. -/
theorem sameButton_double_click_sequence (env : Env) (ee : EnabledElement)
    (e1 f1 e2 f2 : MouseEvent)
    (henv : env.enabled = some ee) (hmask : e2.buttons = e1.buttons) :
    ((run env initialEngineState
        [(0, RawInput.press e1), (30, RawInput.release f1),
         (60, RawInput.press e2), (90, RawInput.release f2)] 90).map
      (fun r => (r.2, r.1.doubleClickState.ignoreDoubleClick,
        (mouseDoubleClickIgnoreListener r.1).2))) =
      some ([], false, false) := by
  by_cases hb : e1.buttons = 1 <;>
    simp [run, fireDueTimers, fireOnce, dispatch, mouseDownListener, henv,
      hmask, hb, onMouseUp, cleanUp, clearDoubleClickTimeoutAndEvents,
      mouseDoubleClickIgnoreListener, initialEngineState, defaultState,
      initialDoubleClickState, initialListeners, DOUBLE_CLICK_TOLERANCE_MS,
      MULTI_BUTTON_TOLERANCE_MS, copyPoints]

/-- Witness for amended C2: the concrete same-button sequence. -/
theorem sameButton_double_click_sequence_wit :
    (sampleEnv.enabled = some sampleEnabled ∧
      pressOneAgain.buttons = pressOne.buttons) ∧
    ((run sampleEnv initialEngineState
        [(0, RawInput.press pressOne), (30, RawInput.release releaseOne),
         (60, RawInput.press pressOneAgain),
         (90, RawInput.release releaseOneAgain)] 90).map
      (fun r => (r.2, r.1.doubleClickState.ignoreDoubleClick,
        (mouseDoubleClickIgnoreListener r.1).2))) =
      some ([], false, false) :=
  ⟨⟨rfl, rfl⟩,
    sameButton_double_click_sequence sampleEnv sampleEnabled pressOne releaseOne
      pressOneAgain releaseOneAgain rfl rfl⟩

/-! ### C3 -/

/-- Counterexample to C3 as stated: invoking the force-finalize transition a
second time immediately after a first invocation is not a no-op — it emits
a second press and press-activate pair (built from the already-cleared,
hence null, buffered press). -/
theorem doStateMouseDownAndUp_twice_cx :
    ((doStateMouseDownAndUp sampleEnv
        (doStateMouseDownAndUp sampleEnv armedState).1).2.map
      (fun e => e.name)) =
      [EventName.MOUSE_DOWN, EventName.MOUSE_DOWN_ACTIVATE] := by
  decide

/-- Amended C3: a second consecutive force-finalize leaves the entire
engine state unchanged (the pending decision state was already cleared and
every state write recomputes the same values), but it is not a no-op on
emissions: it emits a second press — and press-activate when no listener
consumed the press — whose raw source event is null, because the function
replays the buffered press without checking that one is still pending. -/
theorem doStateMouseDownAndUp_second_invocation (env : Env) (s : EngineState) :
    (doStateMouseDownAndUp env (doStateMouseDownAndUp env s).1).1 =
      (doStateMouseDownAndUp env s).1 ∧
    (doStateMouseDownAndUp env (doStateMouseDownAndUp env s).1).2.map
        (fun e => e.name) =
      (if env.notConsumed EventName.MOUSE_DOWN then
        [EventName.MOUSE_DOWN, EventName.MOUSE_DOWN_ACTIVATE]
       else [EventName.MOUSE_DOWN]) ∧
    (doStateMouseDownAndUp env (doStateMouseDownAndUp env s).1).2.head?.map
        (fun e => e.detail.event) = some none := by
  cases hup : s.doubleClickState.mouseUpEvent <;>
    cases helt : s.state.element <;>
      cases hnc : env.notConsumed EventName.MOUSE_DOWN <;>
        simp [doStateMouseDownAndUp, clearDoubleClickTimeoutAndEvents,
          doMouseDown, onMouseUp, cleanUp, copyPoints, defaultState, zeroPoints,
          hup, helt, hnc]

/-! ### C4 -/

/-- Counterexample to C4 as stated: in the press-at-0 / release-at-50
scenario the decision timer firing at 400 replays the buffered release as a
click, not as a release — the third emitted event is `MOUSE_CLICK`, which
differs from the claimed `MOUSE_UP`. -/
theorem doubleClick_timer_fire_emits_click_cx :
    ((run sampleEnv initialEngineState
        [(0, RawInput.press pressOne), (50, RawInput.release releaseOne)] 400).map
      (fun r => r.2.map (fun e => e.name))) =
      some [EventName.MOUSE_DOWN, EventName.MOUSE_DOWN_ACTIVATE,
        EventName.MOUSE_CLICK] ∧
    EventName.MOUSE_CLICK ≠ EventName.MOUSE_UP := by
  refine ⟨by decide, by decide⟩

/-- Amended C4: for a single-button press at t=0 and release at t=50, the
timer firing at t=400 emits exactly press, then press-activate (no listener
consumed the press), then the buffered release replayed through ordinary
release handling — which emits it as a click, since the 200 ms
disqualification delay never elapsed while the button was held; the run
ends with the suppression flag set and the decision timer disarmed, and the
replay is invoked on a state whose suppression flag is already set and
whose timer and buffered events are already cleared. -/
theorem doubleClick_timer_fire_replay_order (env : Env) (ee : EnabledElement)
    (d u : MouseEvent)
    (henv : env.enabled = some ee)
    (hnc : env.notConsumed EventName.MOUSE_DOWN = true)
    (hb : d.buttons = 1) :
    ((run env initialEngineState
        [(0, RawInput.press d), (50, RawInput.release u)] 400).map
      (fun r => (r.2.map (fun e => e.name),
        r.1.doubleClickState.ignoreDoubleClick,
        r.1.doubleClickState.doubleClickTimeout))) =
      some ([EventName.MOUSE_DOWN, EventName.MOUSE_DOWN_ACTIVATE,
        EventName.MOUSE_CLICK], true, none) ∧
    (∀ t : EngineState,
      (clearDoubleClickTimeoutAndEvents
          { t with doubleClickState :=
            { t.doubleClickState with ignoreDoubleClick := true } }).doubleClickState =
        { doubleClickTimeout := none, mouseDownEvent := none,
          mouseUpEvent := none, ignoreDoubleClick := true }) := by
  constructor
  · simp [run, fireDueTimers, fireOnce, dispatch, mouseDownListener, henv, hb,
      hnc, onMouseUp, doStateMouseDownAndUp, doMouseDown, cleanUp,
      clearDoubleClickTimeoutAndEvents, firePreventClickTimeout,
      preventClickHandler, initialEngineState, defaultState,
      initialDoubleClickState, initialListeners, DOUBLE_CLICK_TOLERANCE_MS,
      MULTI_BUTTON_TOLERANCE_MS, copyPoints]
  · intro t
    simp [clearDoubleClickTimeoutAndEvents]

/-- Witness for amended C4: the concrete press/release pair at 0 and 50. -/
theorem doubleClick_timer_fire_replay_order_wit :
    (sampleEnv.enabled = some sampleEnabled ∧
      sampleEnv.notConsumed EventName.MOUSE_DOWN = true ∧
      pressOne.buttons = 1) ∧
    ((run sampleEnv initialEngineState
        [(0, RawInput.press pressOne), (50, RawInput.release releaseOne)] 400).map
      (fun r => (r.2.map (fun e => e.name),
        r.1.doubleClickState.ignoreDoubleClick,
        r.1.doubleClickState.doubleClickTimeout))) =
      some ([EventName.MOUSE_DOWN, EventName.MOUSE_DOWN_ACTIVATE,
        EventName.MOUSE_CLICK], true, none) :=
  ⟨⟨rfl, rfl, rfl⟩,
    (doubleClick_timer_fire_replay_order sampleEnv sampleEnabled pressOne
      releaseOne rfl rfl rfl).1⟩

end CornerstoneMouse
